import Mathlib

/-!
Shallow embedding of `pkg/ctl/create/iamserviceaccount.go` (eksctl):
the command setup `createIAMServiceAccountCmdWithRunFunc` and the
reconciliation orchestrator `doCreateIAMServiceAccount`, together with the
existence filter it delegates to.  External collaborators (config loader,
cluster provider, OIDC manager, stack manager, provisioning actor) are
modelled as an environment of result values; the orchestrator is a pure
function from that environment to its returned error, its call trace and
the warnings it logs.
-/

/-- Desired-state entity: one IAM-backed Kubernetes service account, as bound
to the CLI flags in `createIAMServiceAccountCmdWithRunFunc`
(`api.ClusterIAMServiceAccount`). -/
structure ClusterIAMServiceAccount where
  Name : String
  Namespace : String
  AttachPolicyARNs : List String
  AttachRoleARN : String
  RoleName : String
  RoleOnly : Bool
  Tags : List (String × String)
deriving DecidableEq

/-- Cluster identity (`cfg.Metadata`): name and region, used in diagnostics. -/
structure ClusterMeta where
  Name : String
  Region : String
deriving DecidableEq

/-- The IAM section of the cluster configuration (`cfg.IAM`). -/
structure ClusterIAM where
  WithOIDC : Option Bool
  ServiceAccounts : List ClusterIAMServiceAccount
  OIDCThumbprint : Option String
deriving DecidableEq

/-- The cluster configuration (`api.ClusterConfig`), restricted to the fields
this command reads or writes. -/
structure ClusterConfig where
  Metadata : ClusterMeta
  IAM : ClusterIAM
deriving DecidableEq

/-- Modelled from the spec: `api.NewClusterConfig` (package
`pkg/apis/eksctl.io/v1alpha5`, not under src/) produces a fresh cluster
configuration for the run: no service accounts declared yet, the OIDC
setting unset, no thumbprint, empty identity to be filled from flags. -/
def NewClusterConfig : ClusterConfig :=
  { Metadata := { Name := "", Region := "" }
    IAM := { WithOIDC := none, ServiceAccounts := [], OIDCThumbprint := none } }

/-- The CLI flag values relevant to this command, with the default value each
flag is registered with in `createIAMServiceAccountCmdWithRunFunc`. -/
structure Flags where
  Name : String := ""
  Namespace : String := "default"
  AttachPolicyARNs : List String := []
  AttachRoleARN : String := ""
  RoleName : String := ""
  RoleOnly : Bool := false
  OIDCThumbprint : String := ""
  Tags : List (String × String) := []
  OverrideExistingServiceAccounts : Bool := false

/-- The service account struct whose fields the flag set binds
(`serviceAccount` in `createIAMServiceAccountCmdWithRunFunc`), evaluated at
the parsed flag values. -/
def flagBoundServiceAccount (fl : Flags) : ClusterIAMServiceAccount :=
  { Name := fl.Name
    Namespace := fl.Namespace
    AttachPolicyARNs := fl.AttachPolicyARNs
    AttachRoleARN := fl.AttachRoleARN
    RoleName := fl.RoleName
    RoleOnly := fl.RoleOnly
    Tags := fl.Tags }

/-- Command setup (`createIAMServiceAccountCmdWithRunFunc`): starting from a
fresh `api.NewClusterConfig`, it sets `cfg.IAM.WithOIDC = api.Enabled()` and
appends the one flag-bound service account to `cfg.IAM.ServiceAccounts`; the
result is the configuration the run function sees once flags are parsed. -/
def createIAMServiceAccountCmdSetup (fl : Flags) : ClusterConfig :=
  let cfg := NewClusterConfig
  { cfg with IAM :=
    { cfg.IAM with
      WithOIDC := some true
      ServiceAccounts := cfg.IAM.ServiceAccounts ++ [flagBoundServiceAccount fl] } }

/-- The thumbprint step of `doCreateIAMServiceAccount`: when the package-level
`oIDCThumbprint` flag variable is non-empty, assign it to
`cfg.IAM.OIDCThumbprint`; otherwise leave the configuration untouched. -/
def applyOIDCThumbprint (oIDCThumbprint : String) (cfg : ClusterConfig) : ClusterConfig :=
  if oIDCThumbprint ≠ "" then
    { cfg with IAM := { cfg.IAM with OIDCThumbprint := some oIDCThumbprint } }
  else cfg

/-- The existence state read from the live cluster: the set of
(namespace, name) pairs already present. -/
def ExistenceState := List (String × String)

/-- Modelled from the spec: the Existence Filter
(`IAMServiceAccountFilter.FilterMatching` together with the exclusion set
installed by `SetExcludeExistingFilter`, package `pkg/ctl/cmdutils/filter`,
not under src/).  For each desired spec: if no matching (namespace, name)
pair exists in `existing`, include it; if a match exists, include it exactly
when `override` is true; insertion order is preserved. -/
def FilterMatching (existing : List (String × String)) (override : Bool)
    (desired : List ClusterIAMServiceAccount) : List ClusterIAMServiceAccount :=
  desired.filter fun sa => override || !(existing.contains (sa.Namespace, sa.Name))

/-- The steps of `doCreateIAMServiceAccount`, in source order: collaborator
calls and the pure filter steps. -/
inductive Step
  | load
  | newProviderForExistingCluster
  | canOperate
  | newStdClientSet
  | newOpenIDConnectManager
  | checkProviderExists
  | newStackManager
  | setExcludeExistingFilter
  | filterMatching
  | logInfo
  | printerLogObj
  | createIAMServiceAccount
deriving DecidableEq

/-- A Go context value: the fresh `context.Background()` the orchestrator
constructs, or a context a caller could have supplied. -/
inductive Ctx
  | background
  | caller (id : Nat)
deriving DecidableEq

/-- One call made by the orchestrator: the step, and the context argument it
passed (none when the call takes no context). -/
structure Call where
  step : Step
  ctx : Option Ctx
deriving DecidableEq

/-- The warnings `doCreateIAMServiceAccount` logs (`logger.Warning` calls). -/
inductive Warning
  | noOIDCProviderAssociated
  | roleOnlySAsNotCreated
  | overrideHasNoEffectWithRoleOnly
  | overrideMetadataUpdated
  | existingExcluded
deriving DecidableEq

/-- Collaborator behaviour for one run: the result each external call would
return if invoked.  Errors are `Option String` (`none` is the Go nil error);
`CanOperate` and `CheckProviderExists` return a Bool paired with an error. -/
structure CollabEnv where
  loadResult : Option String
  newProviderResult : Option String
  canOperateResult : Bool × Option String
  newStdClientSetResult : Option String
  newOpenIDConnectManagerResult : Option String
  checkProviderExistsResult : Bool × Option String
  setExcludeExistingFilterResult : Option String
  printerLogObjResult : Option String
  createIAMServiceAccountResult : Option String

/-- The observable outcome of one run: the error returned (none = nil), the
ordered trace of calls made, and the warnings logged. -/
structure RunResult where
  result : Option String
  trace : List Call
  warnings : List Warning
deriving DecidableEq

/-- The mode-selection warnings of `doCreateIAMServiceAccount`: the
`if roleOnly / else if override / else` chain of `logger.Warning` calls. -/
def modeWarnings (roleOnly overrideExistingServiceAccounts : Bool) : List Warning :=
  if roleOnly then
    Warning.roleOnlySAsNotCreated ::
      (if overrideExistingServiceAccounts then [Warning.overrideHasNoEffectWithRoleOnly] else [])
  else if overrideExistingServiceAccounts then [Warning.overrideMetadataUpdated]
  else [Warning.existingExcluded]

/-- The three operation modes of the command. -/
inductive Mode
  | roleOnly
  | overrideExisting
  | default
deriving DecidableEq

/-- Mode selection as performed by the sequential conditionals of
`doCreateIAMServiceAccount` (role-only branch first, then override, then
the default branch). -/
def selectMode (roleOnly overrideExistingServiceAccounts : Bool) : Mode :=
  if roleOnly then Mode.roleOnly
  else if overrideExistingServiceAccounts then Mode.overrideExisting
  else Mode.default

/-- The error the OIDC precondition gate returns when the provider is absent. -/
def noOIDCProviderError : String :=
  "unable to create iamserviceaccount(s) without IAM OIDC provider enabled"

/-- The orchestrator `doCreateIAMServiceAccount`, as a function of the
collaborator environment and the two mode booleans.  It mirrors the source
line by line: load, provider construction (with the fresh background
context), operability check, client set, OIDC manager, provider-existence
gate, stack manager, existence-filter installation, filtering, info log,
mode warnings, config dump, delegation.  Each Go `return err` becomes an
early return of the trace so far. -/
def doCreateIAMServiceAccount (env : CollabEnv)
    (overrideExistingServiceAccounts roleOnly : Bool) : RunResult :=
  let loadCall : Call := ⟨Step.load, none⟩
  match env.loadResult with
  | some e => ⟨some e, [loadCall], []⟩
  | none =>
    let ctx := Ctx.background
    let providerCall : Call := ⟨Step.newProviderForExistingCluster, some ctx⟩
    match env.newProviderResult with
    | some e => ⟨some e, [loadCall, providerCall], []⟩
    | none =>
      let canOperateCall : Call := ⟨Step.canOperate, none⟩
      match env.canOperateResult with
      | (false, e) => ⟨e, [loadCall, providerCall, canOperateCall], []⟩
      | (true, _) =>
        let clientSetCall : Call := ⟨Step.newStdClientSet, none⟩
        match env.newStdClientSetResult with
        | some e => ⟨some e, [loadCall, providerCall, canOperateCall, clientSetCall], []⟩
        | none =>
          let oidcCall : Call := ⟨Step.newOpenIDConnectManager, some ctx⟩
          match env.newOpenIDConnectManagerResult with
          | some e =>
            ⟨some e, [loadCall, providerCall, canOperateCall, clientSetCall, oidcCall], []⟩
          | none =>
            let gateCall : Call := ⟨Step.checkProviderExists, some ctx⟩
            let traceToGate :=
              [loadCall, providerCall, canOperateCall, clientSetCall, oidcCall, gateCall]
            match env.checkProviderExistsResult with
            | (_, some e) => ⟨some e, traceToGate, []⟩
            | (providerExists, none) =>
              if !providerExists then
                ⟨some noOIDCProviderError, traceToGate, [Warning.noOIDCProviderAssociated]⟩
              else
                let stackCall : Call := ⟨Step.newStackManager, none⟩
                let excludeCall : Call := ⟨Step.setExcludeExistingFilter, some ctx⟩
                match env.setExcludeExistingFilterResult with
                | some e => ⟨some e, traceToGate ++ [stackCall, excludeCall], []⟩
                | none =>
                  let filterCall : Call := ⟨Step.filterMatching, none⟩
                  let logInfoCall : Call := ⟨Step.logInfo, none⟩
                  let warns := modeWarnings roleOnly overrideExistingServiceAccounts
                  let printCall : Call := ⟨Step.printerLogObj, none⟩
                  match env.printerLogObjResult with
                  | some e =>
                    ⟨some e,
                     traceToGate ++ [stackCall, excludeCall, filterCall, logInfoCall, printCall],
                     warns⟩
                  | none =>
                    let delegateCall : Call := ⟨Step.createIAMServiceAccount, none⟩
                    ⟨env.createIAMServiceAccountResult,
                     traceToGate ++
                       [stackCall, excludeCall, filterCall, logInfoCall, printCall, delegateCall],
                     warns⟩

/-- The step sequence of a run in which every step executes, in source order. -/
def fullSteps : List Step :=
  [Step.load, Step.newProviderForExistingCluster, Step.canOperate, Step.newStdClientSet,
   Step.newOpenIDConnectManager, Step.checkProviderExists, Step.newStackManager,
   Step.setExcludeExistingFilter, Step.filterMatching, Step.logInfo, Step.printerLogObj,
   Step.createIAMServiceAccount]

/-- An environment in which every collaborator succeeds and the OIDC provider
exists. -/
def envAllOk : CollabEnv :=
  { loadResult := none
    newProviderResult := none
    canOperateResult := (true, none)
    newStdClientSetResult := none
    newOpenIDConnectManagerResult := none
    checkProviderExistsResult := (true, none)
    setExcludeExistingFilterResult := none
    printerLogObjResult := none
    createIAMServiceAccountResult := none }

/-- C2: for every desired sequence, existence state and override flag, the
Existence Filter includes a spec in its output iff its (namespace, name)
pair is absent from the existence state or override is true; with an empty
existence state it returns the full input sequence unchanged and in order. -/
theorem C2_filter_membership (existing : List (String × String)) (override : Bool)
    (desired : List ClusterIAMServiceAccount) :
    (∀ sa : ClusterIAMServiceAccount,
      sa ∈ FilterMatching existing override desired ↔
        sa ∈ desired ∧ ((sa.Namespace, sa.Name) ∉ existing ∨ override = true))
    ∧ FilterMatching [] override desired = desired := by
  constructor
  · intro sa
    simp [FilterMatching, List.mem_filter, List.elem_iff]
    tauto
  · simp [FilterMatching]

/-- Witness for C2: a matched spec is included when override is true, and an
empty existence state passes a singleton batch through unchanged. -/
theorem C2_witness :
    ({ Name := "a", Namespace := "default", AttachPolicyARNs := [], AttachRoleARN := "",
       RoleName := "", RoleOnly := false, Tags := [] } : ClusterIAMServiceAccount) ∈
      FilterMatching [("default", "a")] true
        [{ Name := "a", Namespace := "default", AttachPolicyARNs := [], AttachRoleARN := "",
           RoleName := "", RoleOnly := false, Tags := [] }]
    ∧ FilterMatching [] false
        [{ Name := "a", Namespace := "default", AttachPolicyARNs := [], AttachRoleARN := "",
           RoleName := "", RoleOnly := false, Tags := [] }]
      = [{ Name := "a", Namespace := "default", AttachPolicyARNs := [], AttachRoleARN := "",
           RoleName := "", RoleOnly := false, Tags := [] }] :=
  ⟨((C2_filter_membership [("default", "a")] true _).1 _).mpr (by constructor <;> decide),
   (C2_filter_membership [("default", "a")] false _).2⟩

/-- C7: the Existence Filter is pure and idempotent: filtering an already
filtered batch changes nothing, and the output is a sublist of the input
(elements unmodified, order preserved). -/
theorem C7_filter_pure (existing : List (String × String)) (override : Bool)
    (desired : List ClusterIAMServiceAccount) :
    FilterMatching existing override (FilterMatching existing override desired)
      = FilterMatching existing override desired
    ∧ List.Sublist (FilterMatching existing override desired) desired := by
  constructor
  · simp [FilterMatching, List.filter_filter]
  · exact List.filter_sublist desired

/-- C4: exactly one of the three modes is selected, with priority
role-only over override over default, and with both flags set the
role-only mode wins and the override-has-no-effect warning is logged
exactly once (and only in that flag combination). -/
theorem C4_mode_selection (roleOnly overrideExistingServiceAccounts : Bool) :
    (selectMode roleOnly overrideExistingServiceAccounts = Mode.roleOnly ↔ roleOnly = true)
    ∧ (selectMode roleOnly overrideExistingServiceAccounts = Mode.overrideExisting ↔
        (roleOnly = false ∧ overrideExistingServiceAccounts = true))
    ∧ (selectMode roleOnly overrideExistingServiceAccounts = Mode.default ↔
        (roleOnly = false ∧ overrideExistingServiceAccounts = false))
    ∧ (modeWarnings roleOnly overrideExistingServiceAccounts).count
        Warning.overrideHasNoEffectWithRoleOnly
      = (if roleOnly && overrideExistingServiceAccounts then 1 else 0) := by
  cases roleOnly <;> cases overrideExistingServiceAccounts <;> decide

/-- Witness for C4: at roleOnly = true, override = true, role-only is the
selected mode and the no-effect warning count is one. -/
theorem C4_witness :
    selectMode true true = Mode.roleOnly
    ∧ (modeWarnings true true).count Warning.overrideHasNoEffectWithRoleOnly = 1 :=
  ⟨(C4_mode_selection true true).1.mpr rfl,
   by have h := (C4_mode_selection true true).2.2.2; simpa using h⟩

/-- C8: the flag defaults are namespace "default", role-only false and
override-existing-serviceaccounts false; with no flags supplied the built
spec carries namespace "default" and roleOnly false. -/
theorem C8_flag_defaults :
    ({} : Flags).Namespace = "default"
    ∧ ({} : Flags).RoleOnly = false
    ∧ ({} : Flags).OverrideExistingServiceAccounts = false
    ∧ (createIAMServiceAccountCmdSetup {}).IAM.ServiceAccounts
        = [{ Name := "", Namespace := "default", AttachPolicyARNs := [], AttachRoleARN := "",
             RoleName := "", RoleOnly := false, Tags := [] }] :=
  ⟨rfl, rfl, rfl, rfl⟩

/-- C9: the thumbprint step assigns `cfg.IAM.OIDCThumbprint` iff the flag
variable is non-empty; with the empty string the configuration is returned
untouched, and in every case no other field is modified. -/
theorem C9_thumbprint_frame (t : String) (cfg : ClusterConfig) :
    (t ≠ "" → (applyOIDCThumbprint t cfg).IAM.OIDCThumbprint = some t)
    ∧ (t = "" → applyOIDCThumbprint t cfg = cfg)
    ∧ (applyOIDCThumbprint t cfg).Metadata = cfg.Metadata
    ∧ (applyOIDCThumbprint t cfg).IAM.WithOIDC = cfg.IAM.WithOIDC
    ∧ (applyOIDCThumbprint t cfg).IAM.ServiceAccounts = cfg.IAM.ServiceAccounts := by
  unfold applyOIDCThumbprint
  by_cases h : t = "" <;> simp [h]

/-- Witness for C9: a non-empty thumbprint is written, and the empty
thumbprint leaves the default-flag configuration unchanged. -/
theorem C9_witness :
    (applyOIDCThumbprint "9e99a48a9960b14926bb7f3b02e22da2b0ab7280"
        (createIAMServiceAccountCmdSetup {})).IAM.OIDCThumbprint
      = some "9e99a48a9960b14926bb7f3b02e22da2b0ab7280"
    ∧ applyOIDCThumbprint "" (createIAMServiceAccountCmdSetup {})
      = createIAMServiceAccountCmdSetup {} :=
  ⟨(C9_thumbprint_frame "9e99a48a9960b14926bb7f3b02e22da2b0ab7280"
      (createIAMServiceAccountCmdSetup {})).1 (by decide),
   (C9_thumbprint_frame "" (createIAMServiceAccountCmdSetup {})).2.1 rfl⟩

/-- C10: for every combination of flag values, command setup enables
`cfg.IAM.WithOIDC` and appends exactly one flag-bound service account to the
fresh configuration before the run function executes. -/
theorem C10_setup_invariants (fl : Flags) :
    (createIAMServiceAccountCmdSetup fl).IAM.WithOIDC = some true
    ∧ (createIAMServiceAccountCmdSetup fl).IAM.ServiceAccounts
        = NewClusterConfig.IAM.ServiceAccounts ++ [flagBoundServiceAccount fl]
    ∧ (createIAMServiceAccountCmdSetup fl).IAM.ServiceAccounts.length
        = NewClusterConfig.IAM.ServiceAccounts.length + 1
    ∧ (createIAMServiceAccountCmdSetup fl).IAM.ServiceAccounts
        = [flagBoundServiceAccount fl] :=
  ⟨rfl, rfl, rfl, rfl⟩

/-- C1: once the run reaches the OIDC precondition gate and the provider
check reports the provider absent (false with a nil error), the orchestrator
returns the precondition error and never invokes the existence-state query
(`SetExcludeExistingFilter`), the filter (`FilterMatching`), or the
provisioning collaborator (`CreateIAMServiceAccount`), whatever the flags
and whatever every later collaborator would have returned. -/
theorem C1_gate_absent_no_mutation (env : CollabEnv)
    (overrideExistingServiceAccounts roleOnly : Bool)
    (hload : env.loadResult = none)
    (hprov : env.newProviderResult = none)
    (hop : env.canOperateResult.1 = true)
    (hcs : env.newStdClientSetResult = none)
    (hom : env.newOpenIDConnectManagerResult = none)
    (hgate : env.checkProviderExistsResult = (false, none)) :
    (doCreateIAMServiceAccount env overrideExistingServiceAccounts roleOnly).result
      = some noOIDCProviderError
    ∧ ((doCreateIAMServiceAccount env overrideExistingServiceAccounts roleOnly).trace.map
        Call.step).contains Step.setExcludeExistingFilter = false
    ∧ ((doCreateIAMServiceAccount env overrideExistingServiceAccounts roleOnly).trace.map
        Call.step).contains Step.filterMatching = false
    ∧ ((doCreateIAMServiceAccount env overrideExistingServiceAccounts roleOnly).trace.map
        Call.step).contains Step.createIAMServiceAccount = false := by
  obtain ⟨l, np, ⟨ok, oe⟩, cs, om, ⟨pe, pere⟩, se, pl, ci⟩ := env
  simp only at hload hprov hop hcs hom hgate
  subst hload hprov hcs hom hop
  injection hgate with h1 h2
  subst h1 h2
  exact ⟨rfl, rfl, rfl, rfl⟩

/-- An environment in which every collaborator succeeds but the OIDC
provider is reported absent. -/
def envGateAbsent : CollabEnv :=
  { envAllOk with checkProviderExistsResult := (false, none) }

/-- Witness for C1: the gate-absent environment yields the precondition
error and a trace without the state query, the filter or the delegation. -/
theorem C1_witness :
    (doCreateIAMServiceAccount envGateAbsent false false).result
      = some noOIDCProviderError
    ∧ ((doCreateIAMServiceAccount envGateAbsent false false).trace.map
        Call.step).contains Step.setExcludeExistingFilter = false
    ∧ ((doCreateIAMServiceAccount envGateAbsent false false).trace.map
        Call.step).contains Step.filterMatching = false
    ∧ ((doCreateIAMServiceAccount envGateAbsent false false).trace.map
        Call.step).contains Step.createIAMServiceAccount = false :=
  C1_gate_absent_no_mutation envGateAbsent false false rfl rfl rfl rfl rfl rfl

/-- C3 (amended): the orchestrator executes its steps in the strict source
order (every trace is a prefix of the full step list), and whenever a step
returns an error — for the operability check, an error accompanied by a
not-operable verdict — the orchestrator returns that error and executes no
later step; on full success the delegation result is returned as-is and the
mode warnings are the only warnings logged. -/
theorem C3_pipeline_order_and_abort (env : CollabEnv)
    (overrideExistingServiceAccounts roleOnly : Bool) :
    ((doCreateIAMServiceAccount env overrideExistingServiceAccounts roleOnly).trace.map
        Call.step).isPrefixOf fullSteps = true
    ∧ (∀ e, env.loadResult = some e →
        (doCreateIAMServiceAccount env overrideExistingServiceAccounts roleOnly).result = some e
        ∧ (doCreateIAMServiceAccount env overrideExistingServiceAccounts roleOnly).trace.map
            Call.step = [Step.load])
    ∧ (env.loadResult = none → ∀ e, env.newProviderResult = some e →
        (doCreateIAMServiceAccount env overrideExistingServiceAccounts roleOnly).result = some e
        ∧ (doCreateIAMServiceAccount env overrideExistingServiceAccounts roleOnly).trace.map
            Call.step = [Step.load, Step.newProviderForExistingCluster])
    ∧ (env.loadResult = none → env.newProviderResult = none →
        ∀ e, env.canOperateResult = (false, some e) →
        (doCreateIAMServiceAccount env overrideExistingServiceAccounts roleOnly).result = some e
        ∧ (doCreateIAMServiceAccount env overrideExistingServiceAccounts roleOnly).trace.map
            Call.step = [Step.load, Step.newProviderForExistingCluster, Step.canOperate])
    ∧ (env.loadResult = none → env.newProviderResult = none → env.canOperateResult.1 = true →
        ∀ e, env.newStdClientSetResult = some e →
        (doCreateIAMServiceAccount env overrideExistingServiceAccounts roleOnly).result = some e
        ∧ (doCreateIAMServiceAccount env overrideExistingServiceAccounts roleOnly).trace.map
            Call.step = [Step.load, Step.newProviderForExistingCluster, Step.canOperate,
              Step.newStdClientSet])
    ∧ (env.loadResult = none → env.newProviderResult = none → env.canOperateResult.1 = true →
        env.newStdClientSetResult = none →
        ∀ e, env.newOpenIDConnectManagerResult = some e →
        (doCreateIAMServiceAccount env overrideExistingServiceAccounts roleOnly).result = some e
        ∧ (doCreateIAMServiceAccount env overrideExistingServiceAccounts roleOnly).trace.map
            Call.step = [Step.load, Step.newProviderForExistingCluster, Step.canOperate,
              Step.newStdClientSet, Step.newOpenIDConnectManager])
    ∧ (env.loadResult = none → env.newProviderResult = none → env.canOperateResult.1 = true →
        env.newStdClientSetResult = none → env.newOpenIDConnectManagerResult = none →
        ∀ e, env.checkProviderExistsResult.2 = some e →
        (doCreateIAMServiceAccount env overrideExistingServiceAccounts roleOnly).result = some e
        ∧ (doCreateIAMServiceAccount env overrideExistingServiceAccounts roleOnly).trace.map
            Call.step = [Step.load, Step.newProviderForExistingCluster, Step.canOperate,
              Step.newStdClientSet, Step.newOpenIDConnectManager, Step.checkProviderExists])
    ∧ (env.loadResult = none → env.newProviderResult = none → env.canOperateResult.1 = true →
        env.newStdClientSetResult = none → env.newOpenIDConnectManagerResult = none →
        env.checkProviderExistsResult = (true, none) →
        ∀ e, env.setExcludeExistingFilterResult = some e →
        (doCreateIAMServiceAccount env overrideExistingServiceAccounts roleOnly).result = some e
        ∧ (doCreateIAMServiceAccount env overrideExistingServiceAccounts roleOnly).trace.map
            Call.step = [Step.load, Step.newProviderForExistingCluster, Step.canOperate,
              Step.newStdClientSet, Step.newOpenIDConnectManager, Step.checkProviderExists,
              Step.newStackManager, Step.setExcludeExistingFilter])
    ∧ (env.loadResult = none → env.newProviderResult = none → env.canOperateResult.1 = true →
        env.newStdClientSetResult = none → env.newOpenIDConnectManagerResult = none →
        env.checkProviderExistsResult = (true, none) →
        env.setExcludeExistingFilterResult = none →
        ∀ e, env.printerLogObjResult = some e →
        (doCreateIAMServiceAccount env overrideExistingServiceAccounts roleOnly).result = some e
        ∧ (doCreateIAMServiceAccount env overrideExistingServiceAccounts roleOnly).trace.map
            Call.step = [Step.load, Step.newProviderForExistingCluster, Step.canOperate,
              Step.newStdClientSet, Step.newOpenIDConnectManager, Step.checkProviderExists,
              Step.newStackManager, Step.setExcludeExistingFilter, Step.filterMatching,
              Step.logInfo, Step.printerLogObj])
    ∧ (env.loadResult = none → env.newProviderResult = none → env.canOperateResult.1 = true →
        env.newStdClientSetResult = none → env.newOpenIDConnectManagerResult = none →
        env.checkProviderExistsResult = (true, none) →
        env.setExcludeExistingFilterResult = none → env.printerLogObjResult = none →
        (doCreateIAMServiceAccount env overrideExistingServiceAccounts roleOnly).result
          = env.createIAMServiceAccountResult
        ∧ (doCreateIAMServiceAccount env overrideExistingServiceAccounts roleOnly).trace.map
            Call.step = fullSteps
        ∧ (doCreateIAMServiceAccount env overrideExistingServiceAccounts roleOnly).warnings
          = modeWarnings roleOnly overrideExistingServiceAccounts) := by
  obtain ⟨l, np, ⟨ok, oe⟩, cs, om, ⟨pe, pere⟩, se, pl, ci⟩ := env
  refine ⟨?_, ?_, ?_, ?_, ?_, ?_, ?_, ?_, ?_, ?_⟩
  · cases l <;> cases np <;> cases ok <;> cases cs <;> cases om <;> cases pere <;> cases pe <;>
      cases se <;> cases pl <;> rfl
  · intro e h; simp only at h; subst h; exact ⟨rfl, rfl⟩
  · intro h1 e h2; simp only at h1 h2; subst h1 h2; exact ⟨rfl, rfl⟩
  · intro h1 h2 e h3; simp only at h1 h2 h3; subst h1 h2
    injection h3 with ha hb; subst ha hb; exact ⟨rfl, rfl⟩
  · intro h1 h2 h3 e h4; simp only at h1 h2 h3 h4; subst h1 h2 h3 h4; exact ⟨rfl, rfl⟩
  · intro h1 h2 h3 h4 e h5; simp only at h1 h2 h3 h4 h5; subst h1 h2 h3 h4 h5; exact ⟨rfl, rfl⟩
  · intro h1 h2 h3 h4 h5 e h6; simp only at h1 h2 h3 h4 h5 h6; subst h1 h2 h3 h4 h5 h6
    exact ⟨rfl, rfl⟩
  · intro h1 h2 h3 h4 h5 h6 e h7; simp only at h1 h2 h3 h4 h5 h6 h7
    subst h1 h2 h3 h4 h5 h7; injection h6 with ha hb; subst ha hb; exact ⟨rfl, rfl⟩
  · intro h1 h2 h3 h4 h5 h6 h7 e h8; simp only at h1 h2 h3 h4 h5 h6 h7 h8
    subst h1 h2 h3 h4 h5 h7 h8; injection h6 with ha hb; subst ha hb; exact ⟨rfl, rfl⟩
  · intro h1 h2 h3 h4 h5 h6 h7 h8; simp only at h1 h2 h3 h4 h5 h6 h7 h8
    subst h1 h2 h3 h4 h5 h7 h8; injection h6 with ha hb; subst ha hb; exact ⟨rfl, rfl, rfl⟩

/-- An environment in which the config loader fails. -/
def envLoadFails : CollabEnv := { envAllOk with loadResult := some "load failed" }

/-- Witness for C3: a load failure is returned as-is with a one-step trace,
and that trace is a prefix of the full step order. -/
theorem C3_witness :
    (doCreateIAMServiceAccount envLoadFails false false).result = some "load failed"
    ∧ (doCreateIAMServiceAccount envLoadFails false false).trace.map Call.step = [Step.load]
    ∧ ((doCreateIAMServiceAccount envLoadFails false false).trace.map
        Call.step).isPrefixOf fullSteps = true :=
  ⟨((C3_pipeline_order_and_abort envLoadFails false false).2.1 "load failed" rfl).1,
   ((C3_pipeline_order_and_abort envLoadFails false false).2.1 "load failed" rfl).2,
   (C3_pipeline_order_and_abort envLoadFails false false).1⟩

/-- An environment in which `CanOperate` reports the cluster operable but
also returns a non-nil error. -/
def envSwallowedOperateError : CollabEnv :=
  { envAllOk with canOperateResult := (true, some "cannot operate") }

/-- Counterexample for C3 as stated: the operability check returns a non-nil
error, yet the orchestrator discards it (`if ok, err := ctl.CanOperate(cfg);
!ok` only consults the error when the verdict is not-operable), returns nil
and executes every later step including delegation. -/
theorem C3_counterexample :
    envSwallowedOperateError.canOperateResult.2 = some "cannot operate"
    ∧ (doCreateIAMServiceAccount envSwallowedOperateError false false).result = none
    ∧ (doCreateIAMServiceAccount envSwallowedOperateError false false).trace.map
        Call.step = fullSteps :=
  ⟨rfl, rfl, rfl⟩

/-- C5 (amended): whenever the operability check reports the cluster not
operable, the orchestrator aborts at once — the trace ends at the check and
no later step executes — returning the accompanying error, which is non-nil
exactly when the check supplied a non-nil error. -/
theorem C5_not_operable_aborts (env : CollabEnv)
    (overrideExistingServiceAccounts roleOnly : Bool) (e : Option String)
    (hload : env.loadResult = none)
    (hprov : env.newProviderResult = none)
    (hop : env.canOperateResult = (false, e)) :
    (doCreateIAMServiceAccount env overrideExistingServiceAccounts roleOnly).result = e
    ∧ (doCreateIAMServiceAccount env overrideExistingServiceAccounts roleOnly).trace.map
        Call.step = [Step.load, Step.newProviderForExistingCluster, Step.canOperate]
    ∧ ((doCreateIAMServiceAccount env overrideExistingServiceAccounts roleOnly).result = none
        ↔ e = none) := by
  obtain ⟨l, np, ⟨ok, oe⟩, cs, om, ⟨pe, pere⟩, se, pl, ci⟩ := env
  simp only at hload hprov hop
  subst hload hprov
  injection hop with ha hb
  subst ha hb
  exact ⟨rfl, rfl, Iff.rfl⟩

/-- An environment in which the operability check fails with an error. -/
def envNotOperable : CollabEnv :=
  { envAllOk with canOperateResult := (false, some "cluster is not operable") }

/-- Witness for C5: a not-operable verdict with a non-nil error aborts the
run after three steps and returns that error. -/
theorem C5_witness :
    (doCreateIAMServiceAccount envNotOperable false false).result
      = some "cluster is not operable"
    ∧ (doCreateIAMServiceAccount envNotOperable false false).trace.map Call.step
      = [Step.load, Step.newProviderForExistingCluster, Step.canOperate] :=
  ⟨(C5_not_operable_aborts envNotOperable false false (some "cluster is not operable")
      rfl rfl rfl).1,
   (C5_not_operable_aborts envNotOperable false false (some "cluster is not operable")
      rfl rfl rfl).2.1⟩

/-- An environment in which the operability check reports not-operable with
a nil accompanying error. -/
def envNotOperableNilError : CollabEnv :=
  { envAllOk with canOperateResult := (false, none) }

/-- Counterexample for C5 as stated: with the (ok, err) pair (false, nil)
the orchestrator returns the nil error — the run aborts but exits
successfully, so "returns a non-nil error for every pair with ok = false"
is false on the code. -/
theorem C5_counterexample :
    envNotOperableNilError.canOperateResult = (false, none)
    ∧ (doCreateIAMServiceAccount envNotOperableNilError false false).result = none :=
  ⟨rfl, rfl⟩

/-- C6 (amended): the orchestrator receives no context from its caller; it
constructs one fresh background context and passes exactly that context to
the context-taking steps — provider construction, OIDC manager
construction, the provider-existence check and the existence-state query —
while every other call, the delegation included, is made without any
context. -/
theorem C6_context_background (env : CollabEnv)
    (overrideExistingServiceAccounts roleOnly : Bool) :
    ((doCreateIAMServiceAccount env overrideExistingServiceAccounts roleOnly).trace.all
      fun c =>
        if c.step == Step.newProviderForExistingCluster
            || c.step == Step.newOpenIDConnectManager
            || c.step == Step.checkProviderExists
            || c.step == Step.setExcludeExistingFilter
        then c.ctx == some Ctx.background
        else c.ctx == none) = true := by
  obtain ⟨l, np, ⟨ok, oe⟩, cs, om, ⟨pe, pere⟩, se, pl, ci⟩ := env
  cases l <;> cases np <;> cases ok <;> cases cs <;> cases om <;> cases pere <;> cases pe <;>
    cases se <;> cases pl <;> rfl

/-- Counterexample for C6 as stated: on a fully successful run the contexts
actually passed are the internally constructed background context for the
four context-taking steps and no context at all for the rest — in
particular the delegation (`CreateIAMServiceAccount`, the final call)
receives no context, and no caller-supplied context value occurs anywhere
in the trace, so the caller's cancellation signal is not propagated. -/
theorem C6_counterexample :
    (doCreateIAMServiceAccount envAllOk false false).trace.map Call.ctx
      = [none, some Ctx.background, none, none, some Ctx.background, some Ctx.background,
         none, some Ctx.background, none, none, none, none]
    ∧ ((doCreateIAMServiceAccount envAllOk false false).trace.all
        fun c => !(c.ctx == some (Ctx.caller 0))) = true
    ∧ (Ctx.background == Ctx.caller 0) = false :=
  ⟨rfl, rfl, rfl⟩
